import Mathlib

/-!
Verification of the syntax-highlighting renderer in `rich/syntax.py`
(class `Syntax`).  The Python source is shallowly embedded below: pure
methods become Lean functions; the external collaborators that live in
other modules of the repository (the styled-text primitive `Text`, the
`Style` combination operator, the console wrap primitives, `blend_rgb`)
are modelled from the specification at their interface boundary, as the
spec prescribes.  The external pygments lexer registry is a parameter.
-/

namespace RichRender

/-- A colour value as rich stores it: the terminal default, a hex string
such as `"#000000"` (how `syntax.py` passes colours into `Style`), or an
RGB triplet produced by blending. -/
inductive RColor where
  | termDefault : RColor
  | hex : String → RColor
  | triplet : Nat → Nat → Nat → RColor
deriving DecidableEq, Repr

/-- Modelled from the spec: a rich `Style` is a small record of optional
fields (foreground colour, background colour, bold, italic, underline);
an unset field falls through when styles are layered. -/
structure RichStyle where
  color : Option RColor
  bgcolor : Option RColor
  bold : Option Bool
  italic : Option Bool
  underline : Option Bool
deriving DecidableEq, Repr

/-- The empty `Style()`: no colour, no attributes. -/
def RichStyle.empty : RichStyle :=
  { color := none, bgcolor := none, bold := none, italic := none, underline := none }

/-- Modelled from the spec: `Style + Style` / `Style.chain` composition —
composition takes the rightmost explicitly-set value per field. -/
def RichStyle.combine (a b : RichStyle) : RichStyle :=
  { color := match b.color with | some c => some c | none => a.color
    bgcolor := match b.bgcolor with | some c => some c | none => a.bgcolor
    bold := match b.bold with | some v => some v | none => a.bold
    italic := match b.italic with | some v => some v | none => a.italic
    underline := match b.underline with | some v => some v | none => a.underline }

/-- Modelled from the spec: `Style.chain(s1, s2, s3)` layers left to right. -/
def RichStyle.chain3 (a b c : RichStyle) : RichStyle :=
  (a.combine b).combine c

/-- One entry of a pygments theme, as `style_for_token` returns it:
optional foreground / background hex digits (without the `#`), and the
three boolean attributes. -/
structure PygTokenStyle where
  color : Option String
  bgcolor : Option String
  bold : Bool
  italic : Bool
  underline : Bool
deriving DecidableEq, Repr

/-- A pygments theme (style class) at its interface boundary: a partial
map from token kind to a token style, plus a global background colour
string such as `"#272822"`. -/
structure Theme where
  styleForToken : String → Option PygTokenStyle
  background_color : String

/-- The token kind `Token.Text` used by the renderer for its defaults. -/
def tokenTextKind : String := "Token.Text"

/-- The `Syntax` object as `__init__` leaves it (`src/rich/syntax.py`,
lines 38-70); the theme is already resolved to a style class. -/
structure SyntaxObj where
  code : String
  lexer_name : String
  theme : Theme
  dedent : Bool
  line_numbers : Bool
  start_line : Nat
  line_range : Option (Nat × Nat)
  highlight_lines : List Nat
  code_width : Option Nat
  tab_size : Nat

/-- Embeds `Syntax._get_theme_style` (lines 123-143), without the pure
memoisation cache (the cache has no observable effect): a missing theme
entry yields the empty style; a present entry yields a style whose
foreground defaults to `#000000` and whose background defaults to the
theme's global background colour. -/
def get_theme_style (theme : Theme) (token_type : String) : RichStyle :=
  match theme.styleForToken token_type with
  | none => RichStyle.empty
  | some ps =>
      { color := some (RColor.hex (match ps.color with
          | some c => "#" ++ c
          | none => "#000000"))
        bgcolor := some (RColor.hex (match ps.bgcolor with
          | some b => "#" ++ b
          | none => theme.background_color))
        bold := some ps.bold
        italic := some ps.italic
        underline := some ps.underline }

/-- Embeds `Syntax._get_default_style` (lines 145-148). -/
def get_default_style (syn : SyntaxObj) : RichStyle :=
  (get_theme_style syn.theme tokenTextKind).combine
    { RichStyle.empty with bgcolor := some (RColor.hex syn.theme.background_color) }

/-- Modelled from the spec: a rich `Text` (styled run) at its interface
boundary — a base style, justification, tab size, and a list of pieces;
a piece tagged `none` inherits the base style, a piece tagged `some s`
carries its own span style. -/
structure Text where
  pieces : List (String × Option RichStyle)
  style : RichStyle
  justify : String
  tabSize : Nat
deriving DecidableEq, Repr

/-- Plain text carried by a styled run: the concatenation of its pieces. -/
def plainText (t : Text) : String :=
  t.pieces.foldl (fun acc p => acc ++ p.1) ""

/-- A pygments lexer at its interface boundary: `get_tokens` turns code
into an ordered list of (token kind, fragment) pairs. -/
def Lexer : Type := String → List (String × String)

/-- The pygments lexer registry at its interface boundary:
`get_lexer_by_name` either finds a lexer or raises `ClassNotFound`
(modelled as `none`). -/
def LexerRegistry : Type := String → Option Lexer

/-- Embeds `Syntax._highlight` (lines 150-163): an unresolvable lexer
name degrades to the raw code as a single unstyled-span run carrying the
default style; otherwise each lexer token is appended with its resolved
theme style.  Note the method reads `self.code` (never a dedented copy). -/
def highlight (reg : LexerRegistry) (syn : SyntaxObj) : Text :=
  let default_style := get_default_style syn
  match reg syn.lexer_name with
  | none =>
      { pieces := [(syn.code, none)]
        style := default_style
        justify := "left"
        tabSize := syn.tab_size }
  | some lexer =>
      { pieces := (lexer syn.code).map
          (fun p => (p.2, some (get_theme_style syn.theme p.1)))
        style := default_style
        justify := "left"
        tabSize := syn.tab_size }

/-- Splits a character list at newline characters; always returns at
least one (possibly empty) line, mirroring Python `str.split("\n")`. -/
def splitNL : List Char → List (List Char)
  | [] => [[]]
  | c :: rest =>
      match splitNL rest with
      | [] => []
      | l :: ls => if c = '\n' then [] :: l :: ls else (c :: l) :: ls

/-- Modelled from the spec: helper for splitting one styled piece of a
run into line fragments.  Returns the completed lines contributed by the
piece and the trailing open line. -/
def consumeParts (st : Option RichStyle) :
    List String → List (String × Option RichStyle) →
      List (List (String × Option RichStyle)) × List (String × Option RichStyle)
  | [], cur => ([], cur)
  | [p], cur => ([], cur ++ [(p, st)])
  | p :: q :: rest, cur =>
      let r := consumeParts st (q :: rest) []
      ((cur ++ [(p, st)]) :: r.1, r.2)

/-- Modelled from the spec: splits the piece list of a styled run on
line-break boundaries, preserving each fragment's span style. -/
def splitPieces (ps : List (String × Option RichStyle)) :
    List (List (String × Option RichStyle)) :=
  let step := fun (acc : List (List (String × Option RichStyle)) ×
      List (String × Option RichStyle)) (pc : String × Option RichStyle) =>
    let r := consumeParts pc.2 ((splitNL pc.1.toList).map (fun l => String.mk l)) acc.2
    (acc.1 ++ r.1, r.2)
  let done := ps.foldl step ([], [])
  done.1 ++ [done.2]

/-- Tests whether a string ends with a newline character. -/
def endsWithNL (s : String) : Bool :=
  match s.toList.getLast? with
  | some c => c = '\n'
  | none => false

/-- Modelled from the spec: `Text.split("\n")` — split the styled run
into logical lines on line-break boundaries (a trailing newline does not
produce a final empty line), each line keeping the run's base style,
justification and tab size and its own span styles per sub-range. -/
def splitText (t : Text) : List Text :=
  let rawLines := splitPieces t.pieces
  let lineLists := if endsWithNL (plainText t) then rawLines.dropLast else rawLines
  lineLists.map (fun ps =>
    { pieces := ps, style := t.style, justify := t.justify, tabSize := t.tabSize })

/-- A character counts as horizontal whitespace for dedenting. -/
def isWsChar (c : Char) : Bool := c = ' ' || c = '\t'

/-- A line is blank when it consists solely of whitespace. -/
def isBlankLine (l : List Char) : Bool := l.all isWsChar

/-- Longest common prefix of two character lists. -/
def commonStart : List Char → List Char → List Char
  | a :: as, b :: bs => if a = b then a :: commonStart as bs else []
  | _, _ => []

/-- The leading-whitespace run of a line. -/
def leadingWs (l : List Char) : List Char := l.takeWhile isWsChar

/-- Modelled from the spec: the margin `textwrap.dedent` removes — the
longest whitespace prefix common to all non-blank lines. -/
def dedentMargin (lines : List (List Char)) : List Char :=
  match (lines.filter (fun l => !isBlankLine l)).map leadingWs with
  | [] => []
  | p :: ps => ps.foldl commonStart p

/-- Modelled from the spec: `textwrap.dedent` — compute the longest
whitespace prefix common to all non-blank lines and strip it from every
line that carries it. -/
def pydedent (s : String) : String :=
  let lines := splitNL s.toList
  let margin := dedentMargin lines
  String.mk (List.intercalate ['\n'] (lines.map (fun l =>
    if margin.isPrefixOf l then l.drop margin.length else l)))

/-- Counts the newline characters of a string (Python `code.count("\n")`). -/
def countNewlines (s : String) : Nat := s.toList.count '\n'

/-- Embeds the property `Syntax._numbers_column_width`
(`src/rich/syntax.py`, lines 179-184). -/
def numbers_column_width (syn : SyntaxObj) : Nat :=
  if syn.line_numbers then (toString (syn.start_line + countNewlines syn.code)).length + 2
  else 0

/-- Value of one hexadecimal digit character. -/
def hexVal (c : Char) : Nat :=
  if '0' ≤ c ∧ c ≤ '9' then c.toNat - 48
  else if 'a' ≤ c ∧ c ≤ 'f' then c.toNat - 87
  else if 'A' ≤ c ∧ c ≤ 'F' then c.toNat - 55
  else 0

/-- Modelled from the spec: `parse_rgb_hex` of the rich colour module —
six hex digits to an RGB triplet. -/
def parseRgbHex (s : String) : Nat × Nat × Nat :=
  let l := s.toList
  let at2 := fun (i : Nat) => hexVal (l.getD i '0') * 16 + hexVal (l.getD (i + 1) '0')
  (at2 0, at2 2, at2 4)

/-- The RGB triplet of a colour, when it has one (`Color.triplet`). -/
def colorTriplet : RColor → Option (Nat × Nat × Nat)
  | RColor.termDefault => none
  | RColor.hex s => some (parseRgbHex (s.drop 1))
  | RColor.triplet r g b => some (r, g, b)

/-- Modelled from the spec: one channel of `blend_rgb` with a cross-fade
fraction of `k` tenths — `bg*(1-frac) + fg*frac` rounded to nearest and
clamped to 255. -/
def blendCh (a b k : Nat) : Nat :=
  min ((a * (10 - k) + b * k + 5) / 10) 255

/-- Embeds `Syntax._get_line_numbers_color` (lines 165-177); the blend
fraction is given in tenths (3 for the default 0.3).  A plain-text token
with no explicit colour falls back to the terminal default colour. -/
def get_line_numbers_color (syn : SyntaxObj) (k : Nat) : RColor :=
  let bg := parseRgbHex (syn.theme.background_color.drop 1)
  match (get_theme_style syn.theme tokenTextKind).color with
  | none => RColor.termDefault
  | some fg =>
      match colorTriplet fg with
      | none => RColor.termDefault
      | some t =>
          RColor.triplet (blendCh bg.1 t.1 k) (blendCh bg.2.1 t.2.1 k)
            (blendCh bg.2.2 t.2.2 k)

/-- Embeds `Syntax._get_number_styles` (lines 186-202): background,
number, and highlight styles for line numbers; below 256-colour
capability both number styles degrade to the empty style. -/
def get_number_styles (color_system : String) (syn : SyntaxObj) :
    RichStyle × RichStyle × RichStyle :=
  let background_style : RichStyle :=
    { RichStyle.empty with bgcolor := some (RColor.hex syn.theme.background_color) }
  if color_system = "256" ∨ color_system = "truecolor" then
    let number_style := RichStyle.chain3 background_style
      (get_theme_style syn.theme tokenTextKind)
      { RichStyle.empty with color := some (get_line_numbers_color syn 3) }
    let highlight_number_style := RichStyle.chain3 background_style
      (get_theme_style syn.theme tokenTextKind)
      { RichStyle.empty with bold := some true
                             color := some (get_line_numbers_color syn 9) }
    (background_style, number_style, highlight_number_style)
  else (background_style, RichStyle.empty, RichStyle.empty)

/-- A display segment: a text fragment with an optional style
(`Segment("\n")` carries no style). -/
structure Segment where
  text : String
  style : Option RichStyle
deriving DecidableEq, Repr

/-- One item of the render result: `__console__` yields either a whole
styled run (the no-line-numbers passthrough) or a display segment. -/
inductive RenderItem where
  | run : Text → RenderItem
  | seg : Segment → RenderItem
deriving DecidableEq, Repr

/-- Concatenated plain text of a render result. -/
def plainItems (items : List RenderItem) : String :=
  items.foldl (fun acc i =>
    match i with
    | RenderItem.run t => acc ++ plainText t
    | RenderItem.seg s => acc ++ s.text) ""

/-- Python `str.rjust`: left-pad with spaces to the given width. -/
def rjust (s : String) (w : Nat) : String :=
  String.mk (List.replicate (w - s.length) ' ') ++ s

/-- A string of `n` spaces. -/
def spaces (n : Nat) : String := String.mk (List.replicate n ' ')

/-- Python `enumerate(xs, n)`. -/
def enumFrom (n : Nat) : List Text → List (Nat × Text)
  | [] => []
  | x :: xs => (n, x) :: enumFrom (n + 1) xs

/-- The external wrap primitive `console.render_lines` at its interface
boundary: given the render width, the pad/fill style and a styled line it
yields the physical rows, each a list of segments. -/
def RenderLines : Type := Nat → RichStyle → Text → List (List Segment)

/-- The external `console.render` primitive at its interface boundary,
used by the fixed-width no-line-numbers path: width and run to segments. -/
def RenderAt : Type := Nat → Text → List Segment

/-- Embeds `Syntax.__console__`, line 211: the effective code width. -/
def codeWidthOf (syn : SyntaxObj) (max_width : Nat) : Nat :=
  match syn.code_width with
  | none => max_width
  | some w => w

/-- Embeds `Syntax.__console__`, lines 227-231: the slice offset
`max(0, start_line - 1)` of a requested line range. -/
def lineOffsetOf (syn : SyntaxObj) : Nat :=
  match syn.line_range with
  | none => 0
  | some r => r.1 - 1

/-- Embeds `Syntax.__console__`, line 231: `lines[line_offset:end_line]`. -/
def sliceLines (syn : SyntaxObj) (lines : List Text) : List Text :=
  match syn.line_range with
  | none => lines
  | some r => ((lines.drop (r.1 - 1)).take (r.2 - (r.1 - 1)))

/-- Embeds the per-line loop of `Syntax.__console__` (lines 249-269):
for each logical line, wrap it, emit the gutter of the first physical row
(pointer marker or blank marker, then the right-justified number), emit
blank padding for continuation rows, and append the row content and a
newline after each row. -/
def renderLoop (rl : RenderLines) (wrapW ncw : Nat)
    (background_style number_style highlight_number_style : RichStyle)
    (hl : List Nat) : Nat → List Text → List RenderItem
  | _, [] => []
  | line_no, line :: rest =>
      (match rl wrapW background_style line with
       | [] => []
       | w :: ws =>
          let line_column := rjust (toString line_no) (ncw - 2) ++ " "
          (if hl.contains line_no then
            [RenderItem.seg { text := "❱ ", style := some number_style },
             RenderItem.seg { text := line_column, style := some highlight_number_style }]
          else
            [RenderItem.seg { text := "  ", style := some highlight_number_style },
             RenderItem.seg { text := line_column, style := some number_style }])
          ++ w.map RenderItem.seg
          ++ [RenderItem.seg { text := "\n", style := none }]
          ++ ws.flatMap (fun wl =>
              RenderItem.seg { text := spaces ncw, style := some background_style }
              :: wl.map RenderItem.seg
              ++ [RenderItem.seg { text := "\n", style := none }]))
      ++ renderLoop rl wrapW ncw background_style number_style highlight_number_style
          hl (line_no + 1) rest

/-- Embeds `Syntax.__console__` (`src/rich/syntax.py`, lines 210-269).
The local `textwrap.dedent` result is bound and discarded exactly as in
the source (the source never uses it: `_highlight` reads `self.code`).
Without line numbers the styled run passes through whole (or is handed to
the external fixed-width render primitive); with line numbers the run is
split, optionally range-sliced, and rendered line by line at width
`code_width + numbers_column_width`. -/
def console_segments (rl : RenderLines) (render1 : RenderAt)
    (color_system : String) (max_width : Nat) (reg : LexerRegistry)
    (syn : SyntaxObj) : List RenderItem :=
  let code_width := codeWidthOf syn max_width
  let _code := if syn.dedent then pydedent syn.code else syn.code
  let text := highlight reg syn
  if syn.line_numbers then
    let lines := sliceLines syn (splitText text)
    let line_offset := lineOffsetOf syn
    let ncw := numbers_column_width syn
    let styles := get_number_styles color_system syn
    renderLoop rl (code_width + ncw) ncw styles.1 styles.2.1 styles.2.2
      syn.highlight_lines (syn.start_line + line_offset) lines
  else
    match syn.code_width with
    | none => [RenderItem.run text]
    | some _ => (render1 code_width text).map RenderItem.seg

/-- Modelled from the spec, for comparison with `console_segments`: the
claimed renderer wraps each logical line at `content_width` — the
caller-supplied `code_width`, or the available width minus the gutter
width — rather than at `code_width + numbers_column_width`. -/
def console_segments_claimed (rl : RenderLines) (render1 : RenderAt)
    (color_system : String) (max_width : Nat) (reg : LexerRegistry)
    (syn : SyntaxObj) : List RenderItem :=
  let content_width := match syn.code_width with
    | none => max_width - numbers_column_width syn
    | some w => w
  let _code := if syn.dedent then pydedent syn.code else syn.code
  let text := highlight reg syn
  if syn.line_numbers then
    let lines := sliceLines syn (splitText text)
    let line_offset := lineOffsetOf syn
    let ncw := numbers_column_width syn
    let styles := get_number_styles color_system syn
    renderLoop rl content_width ncw styles.1 styles.2.1 styles.2.2
      syn.highlight_lines (syn.start_line + line_offset) lines
  else
    match syn.code_width with
    | none => [RenderItem.run text]
    | some _ => (render1 content_width text).map RenderItem.seg

/-- Embeds `Syntax.from_path` (`src/rich/syntax.py`, lines 72-121).
File reading and filename-based lexer guessing are I/O glue outside the
core, so the file contents and the guess result enter as parameters.
The source forwards every option to the constructor except `tab_size`,
so the constructed object gets the `__init__` default `4`. -/
def from_path (fileContents : String) (guessedLexer : Option String)
    (theme : Theme) (dedent : Bool) (line_numbers : Bool)
    (line_range : Option (Nat × Nat)) (start_line : Nat)
    (highlight_lines : List Nat) (code_width : Option Nat)
    (tab_size : Nat) : SyntaxObj :=
  let _unused := tab_size
  let lexer_name := match guessedLexer with
    | some n => n
    | none => "default"
  { code := fileContents
    lexer_name := lexer_name
    theme := theme
    dedent := dedent
    line_numbers := line_numbers
    start_line := start_line
    line_range := line_range
    highlight_lines := highlight_lines
    code_width := code_width
    tab_size := 4 }

/-! ### Concrete fixtures used by the claim theorems and witnesses -/

/-- A theme with no token entries and a black background. -/
def themeEmpty : Theme := { styleForToken := fun _ => none, background_color := "#000000" }

/-- A lexer registry that resolves no name (`ClassNotFound` everywhere). -/
def reg0 : LexerRegistry := fun _ => none

/-- A wrap primitive producing no rows. -/
def rl0 : RenderLines := fun _ _ _ => []

/-- A fixed-width render primitive producing no segments. -/
def r0 : RenderAt := fun _ _ => []

/-- A wrap primitive that reports the width it was invoked at. -/
def rlW : RenderLines := fun w _ _ => [[{ text := toString w, style := none }]]

/-- A wrap primitive that behaves like `rlW` at width 13 and degenerates
elsewhere: it agrees with `rlW` exactly at the width the renderer uses
for `synC2`. -/
def rlW13 : RenderLines := fun w st t =>
  if w = 13 then rlW w st t else [[{ text := "Z", style := none }]]

/-- A wrap primitive echoing each logical line as one physical row. -/
def rlEcho : RenderLines := fun _ _ t => [[{ text := plainText t, style := none }]]

/-- A wrap primitive producing two physical rows per logical line. -/
def rlTwo : RenderLines := fun _ _ t =>
  [[{ text := plainText t, style := none }], [{ text := "+", style := none }]]

/-- Indented two-line code, dedent enabled, no line numbers: the input of
the dedent claims. -/
def syn1 : SyntaxObj :=
  { code := "    x\n    y\n", lexer_name := "nosuch", theme := themeEmpty,
    dedent := true, line_numbers := false, start_line := 1, line_range := none,
    highlight_lines := [], code_width := none, tab_size := 4 }

/-- The same code after dedenting, for comparison. -/
def syn1Dedented : SyntaxObj := { syn1 with code := pydedent syn1.code }

/-- The end-to-end example of the spec: `"a\nbb\n"`, line numbers on,
`start_line = 1`, `code_width = 10`. -/
def synC2 : SyntaxObj :=
  { code := "a\nbb\n", lexer_name := "x", theme := themeEmpty,
    dedent := false, line_numbers := true, start_line := 1, line_range := none,
    highlight_lines := [], code_width := some 10, tab_size := 4 }

/-- Six lines, `line_range = (3, 5)`, `start_line = 2`: the line-range
claim's input. -/
def synC3 : SyntaxObj :=
  { code := "l1\nl2\nl3\nl4\nl5\nl6\n", lexer_name := "x", theme := themeEmpty,
    dedent := false, line_numbers := true, start_line := 2, line_range := some (3, 5),
    highlight_lines := [], code_width := none, tab_size := 4 }

/-- Identical to `synC3` except `start_line = 1`. -/
def synC3b : SyntaxObj := { synC3 with start_line := 1 }

/-- Three lines with line 2 highlighted and line numbers on, for the
gutter-marker witness. -/
def synC6 : SyntaxObj :=
  { code := "aa\nbb\ncc\n", lexer_name := "x", theme := themeEmpty,
    dedent := false, line_numbers := true, start_line := 1, line_range := none,
    highlight_lines := [2], code_width := some 5, tab_size := 4 }

/-- A theme entry with an explicit foreground, no background, bold set. -/
def entryKw : PygTokenStyle :=
  { color := some "ff0000", bgcolor := none, bold := true, italic := false,
    underline := false }

/-- A theme resolving exactly the token kind `"kw"`. -/
def themeOne : Theme :=
  { styleForToken := fun tok => if tok = "kw" then some entryKw else none,
    background_color := "#112233" }

/-! ### Helper lemmas -/

/-- The per-line render loop depends on the wrap primitive only through
its behaviour at the single width and fill style the loop passes it. -/
theorem renderLoop_congr (rl rl' : RenderLines) (wrapW ncw : Nat)
    (bg nst hnst : RichStyle) (hl : List Nat)
    (hagree : ∀ t, rl wrapW bg t = rl' wrapW bg t) :
    ∀ (n : Nat) (lines : List Text),
      renderLoop rl wrapW ncw bg nst hnst hl n lines
        = renderLoop rl' wrapW ncw bg nst hnst hl n lines
  | _, [] => rfl
  | n, line :: rest => by
      simp only [renderLoop]
      rw [hagree line,
        renderLoop_congr rl rl' wrapW ncw bg nst hnst hl hagree (n + 1) rest]

/-- The per-line render loop written as a flat map over the enumerated
logical lines, exposing the gutter segments of each physical row. -/
theorem renderLoop_eq_flatMap (rl : RenderLines) (wrapW ncw : Nat)
    (bg nst hnst : RichStyle) (hl : List Nat) :
    ∀ (n : Nat) (lines : List Text),
      renderLoop rl wrapW ncw bg nst hnst hl n lines
        = (enumFrom n lines).flatMap (fun p =>
            match rl wrapW bg p.2 with
            | [] => []
            | w :: ws =>
                (if hl.contains p.1 then
                  [RenderItem.seg { text := "❱ ", style := some nst },
                   RenderItem.seg { text := rjust (toString p.1) (ncw - 2) ++ " ",
                                    style := some hnst }]
                else
                  [RenderItem.seg { text := "  ", style := some hnst },
                   RenderItem.seg { text := rjust (toString p.1) (ncw - 2) ++ " ",
                                    style := some nst }])
                ++ w.map RenderItem.seg
                ++ [RenderItem.seg { text := "\n", style := none }]
                ++ ws.flatMap (fun wl =>
                    RenderItem.seg { text := spaces ncw, style := some bg }
                    :: wl.map RenderItem.seg
                    ++ [RenderItem.seg { text := "\n", style := none }]))
  | _, [] => rfl
  | n, line :: rest => by
      simp only [renderLoop, enumFrom, List.flatMap_cons]
      rw [renderLoop_eq_flatMap rl wrapW ncw bg nst hnst hl (n + 1) rest]

/-- Digit-list length of `Nat.toDigitsCore` in base 10: one digit more
than the base-10 logarithm, plus whatever is already accumulated. -/
theorem toDigitsCore_log_length :
    ∀ (fuel n : Nat) (acc : List Char), n < fuel →
      (Nat.toDigitsCore 10 fuel n acc).length = Nat.log 10 n + 1 + acc.length := by
  intro fuel
  induction fuel with
  | zero => intro n acc h; exact absurd h (Nat.not_lt_zero n)
  | succ fuel ih =>
      intro n acc h
      by_cases h0 : n / 10 = 0
      · have h10 : n < 10 := by
          by_contra hc
          push_neg at hc
          have := Nat.div_pos hc (by norm_num)
          omega
        simp only [Nat.toDigitsCore, h0, if_true, List.length_cons]
        rw [Nat.log_of_lt h10]
        omega
      · have hge : 10 ≤ n := by
          by_contra hc
          push_neg at hc
          exact h0 (Nat.div_eq_of_lt hc)
        have hlt : n / 10 < fuel :=
          lt_of_lt_of_le (Nat.div_lt_self (by omega) (by norm_num))
            (Nat.lt_succ_iff.mp h)
        simp only [Nat.toDigitsCore, h0, if_false]
        rw [ih (n / 10) (Nat.digitChar (n % 10) :: acc) hlt]
        have hlog : Nat.log 10 (n / 10) = Nat.log 10 n - 1 := Nat.log_div_base 10 n
        have hpos : 0 < Nat.log 10 n := Nat.log_pos (by norm_num) hge
        simp only [List.length_cons]
        omega

/-- Length of the decimal representation of a natural number: one more
than its base-10 logarithm (also for 0, whose representation is "0"). -/
theorem length_repr (n : Nat) : (Nat.repr n).length = Nat.log 10 n + 1 := by
  have h := toDigitsCore_log_length (n + 1) n [] (Nat.lt_succ_self n)
  simp only [List.length_nil, Nat.add_zero] at h
  show (Nat.toDigitsCore 10 (n + 1) n []).length = Nat.log 10 n + 1
  exact h

/-- Prepending the empty string is the identity. -/
theorem empty_append_str (s : String) : "" ++ s = s := by
  cases s
  rfl

/-! ### Claim theorems -/

/-- C1: the claim says that with dedent enabled the rendered output text
is the dedented code.  The code computes `textwrap.dedent(code)` into a
local variable of `__console__` but `_highlight` reads `self.code`, so
the rendered text is the raw code: for `"    x\n    y\n"` with dedent
enabled the output text keeps the four-space indent even though the
dedented code is `"x\ny\n"`.  This contradicts the constructor docstring
("dedent: Enable stripping of initial whitespace"), so the code, not the
claim, is wrong. -/
theorem c1_dedent_not_applied :
    plainItems (console_segments rl0 r0 "truecolor" 80 reg0 syn1) = "    x\n    y\n" ∧
    pydedent syn1.code = "x\ny\n" ∧
    plainItems (console_segments rl0 r0 "truecolor" 80 reg0 syn1) ≠ pydedent syn1.code :=
  ⟨by decide, by decide, by decide⟩

/-- C4 (counterexample): rendering `syn1` (dedent enabled, no line
numbers, no fixed width) does not produce the highlighted text of the
dedented code, because the dedent step is dead code. -/
theorem c4_passthrough_counterexample :
    plainItems (console_segments rl0 r0 "truecolor" 80 reg0 syn1)
      ≠ plainText (highlight reg0 syn1Dedented) := by decide

/-- C4 (amended): with `line_numbers = False` and no `code_width`, the
single styled run produced by highlighting is emitted whole — no
wrapping, no splitting — so the concatenated output text equals the
highlighted text of the raw (not dedented) code exactly. -/
theorem c4_passthrough_amended (rl : RenderLines) (render1 : RenderAt)
    (color_system : String) (max_width : Nat) (reg : LexerRegistry)
    (syn : SyntaxObj) (h1 : syn.line_numbers = false) (h2 : syn.code_width = none) :
    console_segments rl render1 color_system max_width reg syn
        = [RenderItem.run (highlight reg syn)] ∧
      plainItems (console_segments rl render1 color_system max_width reg syn)
        = plainText (highlight reg syn) := by
  have hout : console_segments rl render1 color_system max_width reg syn
      = [RenderItem.run (highlight reg syn)] := by
    simp [console_segments, h1, h2]
  refine ⟨hout, ?_⟩
  rw [hout]
  exact empty_append_str (plainText (highlight reg syn))

/-- C4 (witness for the amended theorem). -/
theorem c4_passthrough_amended_witness :
    console_segments rl0 r0 "truecolor" 80 reg0 syn1
        = [RenderItem.run (highlight reg0 syn1)] ∧
      plainItems (console_segments rl0 r0 "truecolor" 80 reg0 syn1)
        = plainText (highlight reg0 syn1) :=
  c4_passthrough_amended rl0 r0 "truecolor" 80 reg0 syn1 rfl rfl

/-- C5: the gutter column width is the number of decimal digits of
`start_line + newline_count(code)` — that is `log₁₀ + 1`, also for the
value 0 whose representation "0" has one digit — plus 2 when line
numbers are enabled, and 0 when they are disabled, for every code
including empty code. -/
theorem c5_gutter_width (syn : SyntaxObj) :
    numbers_column_width syn =
      if syn.line_numbers
      then Nat.log 10 (syn.start_line + countNewlines syn.code) + 1 + 2
      else 0 := by
  unfold numbers_column_width
  cases hb : syn.line_numbers
  · simp
  · simp only [if_true]
    rw [show (toString (syn.start_line + countNewlines syn.code))
        = Nat.repr (syn.start_line + countNewlines syn.code) from rfl,
      length_repr]

/-- C5 (witness): evaluated at a concrete object — `syn1` has one
thousand… rather, `start_line = 1` and two newlines, so the enabled
variant of the formula gives `log₁₀ 3 + 1 + 2 = 3` and the disabled
object yields width 0. -/
theorem c5_gutter_width_witness :
    numbers_column_width synC2 =
      (if synC2.line_numbers
       then Nat.log 10 (synC2.start_line + countNewlines synC2.code) + 1 + 2
       else 0) ∧
    numbers_column_width synC2 = 3 :=
  ⟨c5_gutter_width synC2, by decide⟩

/-- C7: for a token kind the theme does resolve, the style is built with
foreground the theme entry's colour when one is specified and `#000000`
otherwise, background the entry's bgcolor when specified and the theme's
global background otherwise — never the terminal default, never unset —
and bold, italic and underline copied verbatim from the entry. -/
theorem c7_theme_style_resolution (theme : Theme) (tok : String)
    (e : PygTokenStyle) (h : theme.styleForToken tok = some e) :
    get_theme_style theme tok =
      { color := some (RColor.hex (match e.color with
          | some c => "#" ++ c
          | none => "#000000"))
        bgcolor := some (RColor.hex (match e.bgcolor with
          | some b => "#" ++ b
          | none => theme.background_color))
        bold := some e.bold
        italic := some e.italic
        underline := some e.underline } ∧
      (get_theme_style theme tok).bgcolor ≠ some RColor.termDefault ∧
      (get_theme_style theme tok).bgcolor ≠ none := by
  refine ⟨by simp [get_theme_style, h], ?_, ?_⟩ <;> simp [get_theme_style, h]

/-- C7 (witness): the single-entry theme `themeOne` resolves `"kw"` to
red-on-theme-background with bold copied through. -/
theorem c7_theme_style_resolution_witness :
    (get_theme_style themeOne "kw" =
      { color := some (RColor.hex (match entryKw.color with
          | some c => "#" ++ c
          | none => "#000000"))
        bgcolor := some (RColor.hex (match entryKw.bgcolor with
          | some b => "#" ++ b
          | none => themeOne.background_color))
        bold := some entryKw.bold
        italic := some entryKw.italic
        underline := some entryKw.underline } ∧
      (get_theme_style themeOne "kw").bgcolor ≠ some RColor.termDefault ∧
      (get_theme_style themeOne "kw").bgcolor ≠ none) ∧
    get_theme_style themeOne "kw" =
      { color := some (RColor.hex "#ff0000")
        bgcolor := some (RColor.hex "#112233")
        bold := some true, italic := some false, underline := some false } :=
  ⟨c7_theme_style_resolution themeOne "kw" entryKw rfl, by decide⟩

/-- C8: for a token kind absent from the theme, resolution yields the
empty default style — no colours and no attributes.  The embedded
resolver is a total function, so resolution never raises. -/
theorem c8_missing_token_default (theme : Theme) (tok : String)
    (h : theme.styleForToken tok = none) :
    get_theme_style theme tok = RichStyle.empty ∧
      (get_theme_style theme tok).color = none ∧
      (get_theme_style theme tok).bgcolor = none ∧
      (get_theme_style theme tok).bold = none ∧
      (get_theme_style theme tok).italic = none ∧
      (get_theme_style theme tok).underline = none := by
  refine ⟨?_, ?_, ?_, ?_, ?_, ?_⟩ <;> simp [get_theme_style, h, RichStyle.empty]

/-- C8 (witness): the empty theme resolves any token kind to the empty
style. -/
theorem c8_missing_token_default_witness :
    get_theme_style themeEmpty "Token.Keyword" = RichStyle.empty ∧
      (get_theme_style themeEmpty "Token.Keyword").color = none ∧
      (get_theme_style themeEmpty "Token.Keyword").bgcolor = none ∧
      (get_theme_style themeEmpty "Token.Keyword").bold = none ∧
      (get_theme_style themeEmpty "Token.Keyword").italic = none ∧
      (get_theme_style themeEmpty "Token.Keyword").underline = none :=
  c8_missing_token_default themeEmpty "Token.Keyword" rfl

/-- C9: when the lexer registry cannot resolve the lexer name,
highlighting returns the raw code as a single-piece styled run whose
base style is the default style, left-justified, with the configured tab
size; the embedded function is total, so rendering is never aborted by
an unknown lexer name. -/
theorem c9_unknown_lexer_passthrough (reg : LexerRegistry) (syn : SyntaxObj)
    (h : reg syn.lexer_name = none) :
    highlight reg syn =
      { pieces := [(syn.code, none)]
        style := get_default_style syn
        justify := "left"
        tabSize := syn.tab_size } ∧
      plainText (highlight reg syn) = syn.code := by
  have hrun : highlight reg syn =
      { pieces := [(syn.code, none)]
        style := get_default_style syn
        justify := "left"
        tabSize := syn.tab_size } := by
    simp [highlight, h]
  refine ⟨hrun, ?_⟩
  rw [hrun]
  exact empty_append_str syn.code

/-- C9 (witness): `syn1` names the lexer `"nosuch"`, which `reg0` does
not resolve. -/
theorem c9_unknown_lexer_passthrough_witness :
    highlight reg0 syn1 =
      { pieces := [(syn1.code, none)]
        style := get_default_style syn1
        justify := "left"
        tabSize := syn1.tab_size } ∧
      plainText (highlight reg0 syn1) = syn1.code :=
  c9_unknown_lexer_passthrough reg0 syn1 rfl

/-- C10: `from_path` accepts a `tab_size` argument but does not forward
it to the constructor call, so the constructed object always carries the
`__init__` default tab size 4, whatever the caller passed. -/
theorem c10_from_path_tab_size (fileContents : String)
    (guessedLexer : Option String) (theme : Theme) (d ln : Bool)
    (lr : Option (Nat × Nat)) (sl : Nat) (hls : List Nat)
    (cw : Option Nat) (ts : Nat) :
    (from_path fileContents guessedLexer theme d ln lr sl hls cw ts).tab_size = 4 :=
  rfl

/-- C2 (counterexample): on the spec's own end-to-end example (code
`"a\nbb\n"`, `code_width = 10`, line numbers on, gutter width 3) the
renderer does not invoke the wrap primitive at the claimed content width
(`code_width`, i.e. 10): rendering with a width-reporting wrap primitive
differs from the claimed-width rendering — the source wraps at
`code_width + numbers_column_width` = 13. -/
theorem c2_wrap_width_counterexample :
    console_segments rlW r0 "standard" 80 reg0 synC2
      ≠ console_segments_claimed rlW r0 "standard" 80 reg0 synC2 := by decide

/-- C2 (amended): with line numbers enabled, each logical line is handed
to the external wrap primitive at width `code_width +
numbers_column_width` (the caller-supplied `code_width`, or the full
available width, PLUS the gutter width — not the claimed `code_width`
alone, nor the available width minus the gutter): the output depends on
the wrap primitive only through its behaviour at that width and at the
background fill style. -/
theorem c2_wrap_width_amended (rl rl' : RenderLines) (render1 : RenderAt)
    (color_system : String) (max_width : Nat) (reg : LexerRegistry)
    (syn : SyntaxObj) (h : syn.line_numbers = true)
    (hagree : ∀ t, rl (codeWidthOf syn max_width + numbers_column_width syn)
        (get_number_styles color_system syn).1 t
      = rl' (codeWidthOf syn max_width + numbers_column_width syn)
        (get_number_styles color_system syn).1 t) :
    console_segments rl render1 color_system max_width reg syn
      = console_segments rl' render1 color_system max_width reg syn := by
  simp only [console_segments, h, if_true]
  exact renderLoop_congr rl rl' _ _ _ _ _ _ hagree _ _

/-- C2 (witness for the amended theorem): `rlW13` agrees with `rlW`
exactly at width 13 = 10 + 3 and nowhere else, and the two renderings of
the example coincide. -/
theorem c2_wrap_width_amended_witness :
    console_segments rlW r0 "standard" 80 reg0 synC2
      = console_segments rlW13 r0 "standard" 80 reg0 synC2 :=
  c2_wrap_width_amended rlW rlW13 r0 "standard" 80 reg0 synC2 rfl
    (fun _ => rfl)

/-- C3 (counterexample): with `line_range = (3, 5)` the emitted gutter
numbers do depend on `start_line`.  With `start_line = 2` the three
sliced lines `l3, l4, l5` are numbered 4, 5, 6 (not 3, 4, 5): the first
conjunct shows the full output, and the second shows the rendering is
not invariant under changing `start_line` from 2 to 1. -/
theorem c3_numbering_counterexample :
    console_segments rlEcho r0 "standard" 80 reg0 synC3 =
      [RenderItem.seg { text := "  ", style := some RichStyle.empty },
       RenderItem.seg { text := "4 ", style := some RichStyle.empty },
       RenderItem.seg { text := "l3", style := none },
       RenderItem.seg { text := "\n", style := none },
       RenderItem.seg { text := "  ", style := some RichStyle.empty },
       RenderItem.seg { text := "5 ", style := some RichStyle.empty },
       RenderItem.seg { text := "l4", style := none },
       RenderItem.seg { text := "\n", style := none },
       RenderItem.seg { text := "  ", style := some RichStyle.empty },
       RenderItem.seg { text := "6 ", style := some RichStyle.empty },
       RenderItem.seg { text := "l5", style := none },
       RenderItem.seg { text := "\n", style := none }] ∧
    console_segments rlEcho r0 "standard" 80 reg0 synC3
      ≠ console_segments rlEcho r0 "standard" 80 reg0 synC3b :=
  ⟨by decide, by decide⟩

/-- C3 (amended): with `line_range = (3, 5)` exactly the logical lines
at 1-based positions 3, 4 and 5 of the split styled run are rendered
(`drop 2`, `take 3`), and their gutter numbers start at `start_line + 2`
— so they are 3, 4, 5 exactly when `start_line = 1`, not regardless of
`start_line`. -/
theorem c3_line_range_amended (rl : RenderLines) (render1 : RenderAt)
    (color_system : String) (max_width : Nat) (reg : LexerRegistry)
    (syn : SyntaxObj) (h : syn.line_numbers = true)
    (hr : syn.line_range = some (3, 5)) :
    console_segments rl render1 color_system max_width reg syn
      = renderLoop rl (codeWidthOf syn max_width + numbers_column_width syn)
          (numbers_column_width syn) (get_number_styles color_system syn).1
          (get_number_styles color_system syn).2.1
          (get_number_styles color_system syn).2.2 syn.highlight_lines
          (syn.start_line + 2)
          (((splitText (highlight reg syn)).drop 2).take 3) := by
  simp only [console_segments, h, if_true, sliceLines, lineOffsetOf, hr]

/-- C3 (witness for the amended theorem), at `synC3`: the slice is lines
3..5 and the first gutter number is `start_line + 2 = 4`. -/
theorem c3_line_range_amended_witness :
    console_segments rlEcho r0 "standard" 80 reg0 synC3
      = renderLoop rlEcho (codeWidthOf synC3 80 + numbers_column_width synC3)
          (numbers_column_width synC3) (get_number_styles "standard" synC3).1
          (get_number_styles "standard" synC3).2.1
          (get_number_styles "standard" synC3).2.2 synC3.highlight_lines
          (synC3.start_line + 2)
          (((splitText (highlight reg0 synC3)).drop 2).take 3) :=
  c3_line_range_amended rlEcho r0 "standard" 80 reg0 synC3 rfl rfl

/-- C6: with line numbers enabled the output is, per surviving logical
line: on the first physical row, if the line number is highlighted, the
two-character pointer marker `"❱ "` styled with `number_style` followed
by the right-justified number plus a trailing space styled with
`highlight_number_style`; otherwise two spaces styled with
`highlight_number_style` followed by the number-plus-space styled with
`number_style`; and every subsequent physical row of the same logical
line gets a full-gutter-width blank segment styled with
`background_style` — never the marker. -/
theorem c6_gutter_marker (rl : RenderLines) (render1 : RenderAt)
    (color_system : String) (max_width : Nat) (reg : LexerRegistry)
    (syn : SyntaxObj) (h : syn.line_numbers = true) :
    console_segments rl render1 color_system max_width reg syn
      = (enumFrom (syn.start_line + lineOffsetOf syn)
            (sliceLines syn (splitText (highlight reg syn)))).flatMap (fun p =>
          match rl (codeWidthOf syn max_width + numbers_column_width syn)
              (get_number_styles color_system syn).1 p.2 with
          | [] => []
          | w :: ws =>
              (if syn.highlight_lines.contains p.1 then
                [RenderItem.seg { text := "❱ ", style := some (get_number_styles color_system syn).2.1 },
                 RenderItem.seg { text := rjust (toString p.1) (numbers_column_width syn - 2) ++ " ", style := some (get_number_styles color_system syn).2.2 }]
              else
                [RenderItem.seg { text := "  ", style := some (get_number_styles color_system syn).2.2 },
                 RenderItem.seg { text := rjust (toString p.1) (numbers_column_width syn - 2) ++ " ", style := some (get_number_styles color_system syn).2.1 }])
              ++ w.map RenderItem.seg
              ++ [RenderItem.seg { text := "\n", style := none }]
              ++ ws.flatMap (fun wl =>
                  RenderItem.seg { text := spaces (numbers_column_width syn), style := some (get_number_styles color_system syn).1 }
                  :: wl.map RenderItem.seg
                  ++ [RenderItem.seg { text := "\n", style := none }])) := by
  simp only [console_segments, h, if_true]
  exact renderLoop_eq_flatMap rl _ _ _ _ _ _ _ _

/-- C6 (witness): the gutter layout evaluated at `synC6` (line 2
highlighted, every line wrapped to two physical rows by `rlTwo`). -/
theorem c6_gutter_marker_witness :
    console_segments rlTwo r0 "truecolor" 80 reg0 synC6
      = (enumFrom (synC6.start_line + lineOffsetOf synC6)
            (sliceLines synC6 (splitText (highlight reg0 synC6)))).flatMap (fun p =>
          match rlTwo (codeWidthOf synC6 80 + numbers_column_width synC6)
              (get_number_styles "truecolor" synC6).1 p.2 with
          | [] => []
          | w :: ws =>
              (if synC6.highlight_lines.contains p.1 then
                [RenderItem.seg { text := "❱ ", style := some (get_number_styles "truecolor" synC6).2.1 },
                 RenderItem.seg { text := rjust (toString p.1) (numbers_column_width synC6 - 2) ++ " ", style := some (get_number_styles "truecolor" synC6).2.2 }]
              else
                [RenderItem.seg { text := "  ", style := some (get_number_styles "truecolor" synC6).2.2 },
                 RenderItem.seg { text := rjust (toString p.1) (numbers_column_width synC6 - 2) ++ " ", style := some (get_number_styles "truecolor" synC6).2.1 }])
              ++ w.map RenderItem.seg
              ++ [RenderItem.seg { text := "\n", style := none }]
              ++ ws.flatMap (fun wl =>
                  RenderItem.seg { text := spaces (numbers_column_width synC6), style := some (get_number_styles "truecolor" synC6).1 }
                  :: wl.map RenderItem.seg
                  ++ [RenderItem.seg { text := "\n", style := none }])) :=
  c6_gutter_marker rlTwo r0 "truecolor" 80 reg0 synC6 rfl

end RichRender
